import Mathlib

/-!
Verification of the MultiQC log-parsing modules (coverage_metrics, hisat2,
jax_trimmer, primerclip).  The Python sources are shallowly embedded below:
log texts are lists of lines, Python dicts are association lists with
insert-overwrite semantics, `re.search` is realised by a small backtracking
matcher covering exactly the constructs the modules' patterns use, and numeric
values are modelled exactly (ints as `Int`, Python floats as `Rat`).
-/

/-! ## String and list utilities -/

/-- Decides whether `pre` is a prefix of `s` (over explicit character lists). -/
def hasPref : List Char → List Char → Bool
  | [], _ => true
  | _ :: _, [] => false
  | p :: ps, c :: cs => p = c && hasPref ps cs

/-- Drops the prefix `pre` from `s`, or fails when `pre` is not a prefix. -/
def dropPref : List Char → List Char → Option (List Char)
  | [], s => some s
  | _ :: _, [] => none
  | p :: ps, c :: cs => if p = c then dropPref ps cs else none

/-- Decides Python's substring containment `pat in s`. -/
def hasSub (pat : List Char) : List Char → Bool
  | [] => hasPref pat []
  | c :: t => hasPref pat (c :: t) || hasSub pat t

/-- Worker for `removeSub`, structurally recursive on a fuel bound so that
concrete instances evaluate by kernel reduction; `fuel ≥ s.length` makes it
total over the scan. -/
def removeSubF (pat : List Char) : Nat → List Char → List Char
  | 0, s => s
  | _ + 1, [] => []
  | fuel + 1, c :: t =>
    match dropPref pat (c :: t) with
    | some rest => removeSubF pat fuel rest
    | none => c :: removeSubF pat fuel t

/-- Python's `str.replace(pat, "")` with a nonempty pattern: removes every
occurrence of `pat`, scanning left to right and continuing after each removed
occurrence. -/
def removeSub (pat : List Char) (s : List Char) : List Char :=
  match pat with
  | [] => s
  | _ :: _ => removeSubF pat s.length s

/-- Python's `s.replace(pat, "")` on `String`. -/
def pyReplace (s pat : String) : String := ⟨removeSub pat.data s.data⟩

/-- Remainder of a reversed character list after its first `'_'`, if any. -/
def rsplitRest : List Char → Option (List Char)
  | [] => none
  | c :: t => if c = '_' then some t else rsplitRest t

/-- Python's `s.rsplit("_", 1)[0]`: everything before the last underscore,
or the whole string when there is none. -/
def rsplitHead (s : String) : String :=
  match rsplitRest s.data.reverse with
  | some t => ⟨t.reverse⟩
  | none => s

/-- Numeric value of a list of decimal digit characters. -/
def digitsToNat (ds : List Char) : Nat :=
  ds.foldl (fun n c => 10 * n + (c.toNat - 48)) 0

/-- Splits a character list at its first `'.'` (integer part, fractional part). -/
def splitDot : List Char → List Char × List Char
  | [] => ([], [])
  | c :: t => if c = '.' then ([], t) else
      let p := splitDot t
      (c :: p.1, p.2)

/-- Python's `float()` on the digit/dot strings captured by the modules'
regexes, as an exact rational (built with `mkRat` so that concrete instances
evaluate by kernel reduction). -/
def pyFloat (cs : List Char) : Rat :=
  let p := splitDot cs
  mkRat (digitsToNat p.1 * 10 ^ p.2.length + digitsToNat p.2) (10 ^ p.2.length)

/-- Python's `int()` on a captured digit string. -/
def pyInt (cs : List Char) : Int := (digitsToNat cs : Int)

/-! ## Regex engine

A backtracking matcher implementing `re.search` for the constructs the four
modules' patterns use: literals, character classes, `+` over a class
(greedy with backtracking), `?` (greedy), concatenation, and numbered
capturing groups. -/

/-- Character class: a positive or negated set of characters. -/
inductive CC where
  | oneOf (cs : List Char)
  | noneOf (cs : List Char)
deriving DecidableEq

/-- Membership of a character in a class. -/
def CC.mem : CC → Char → Bool
  | .oneOf cs, c => cs.contains c
  | .noneOf cs, c => !(cs.contains c)

/-- Regular expressions, with explicit Python group numbers on captures. -/
inductive RE where
  | eps
  | lit (cs : List Char)
  | cls (c : CC)
  | rep (c : CC)
  | opt (r : RE)
  | seq (a b : RE)
  | grp (n : Nat) (r : RE)
deriving DecidableEq

/-- Captured groups: Python group number paired with the captured text. -/
abbrev Caps := List (Nat × List Char)

/-- Length of the maximal run of class members at the head of the input. -/
def runLen (c : CC) : List Char → Nat
  | [] => 0
  | ch :: t => if c.mem ch then runLen c t + 1 else 0

/-- Tries the continuation after consuming `n, n-1, ..., 1` characters
(longest first: greedy `+` with backtracking). -/
def tryRep (k : List Char → Caps → Option Caps) (caps : Caps) (s : List Char) :
    Nat → Option Caps
  | 0 => none
  | n + 1 =>
    match k (s.drop (n + 1)) caps with
    | some res => some res
    | none => tryRep k caps s n

/-- CPS matcher: matches `r` at the head of `s`, passing the rest of the
input and the accumulated captures to the continuation; `none` answers from
the continuation cause backtracking. -/
def reMatch : RE → List Char → (List Char → Caps → Option Caps) → Caps → Option Caps
  | .eps, s, k, caps => k s caps
  | .lit cs, s, k, caps =>
    match dropPref cs s with
    | some rest => k rest caps
    | none => none
  | .cls c, s, k, caps =>
    match s with
    | [] => none
    | ch :: t => if c.mem ch then k t caps else none
  | .rep c, s, k, caps => tryRep k caps s (runLen c s)
  | .opt r, s, k, caps =>
    match reMatch r s k caps with
    | some res => some res
    | none => k s caps
  | .seq a b, s, k, caps => reMatch a s (fun rest cs => reMatch b rest k cs) caps
  | .grp n r, s, k, caps =>
    reMatch r s (fun rest cs => k rest ((n, s.take (s.length - rest.length)) :: cs)) caps

/-- Anchored match attempt at the start of the input. -/
def reMatchTop (r : RE) (s : List Char) : Option Caps :=
  reMatch r s (fun _ caps => some caps) []

/-- Unanchored search: tries each start position left to right, as
`re.search` does. -/
def searchFrom (r : RE) : List Char → Option Caps
  | [] => reMatchTop r []
  | c :: t =>
    match reMatchTop r (c :: t) with
    | some caps => some caps
    | none => searchFrom r t

/-- A pattern as the modules use it: `anchored` records a leading `^`. -/
structure REA where
  anchored : Bool
  re : RE
deriving DecidableEq

/-- The embedding of `re.search(pattern, line)`. -/
def reSearch (ra : REA) (l : String) : Option Caps :=
  if ra.anchored then reMatchTop ra.re l.data else searchFrom ra.re l.data

/-- Looks up a capture by group number. -/
def capLookup (n : Nat) : Caps → Option (List Char)
  | [] => none
  | (m, g) :: t => if m = n then some g else capLookup n t

/-- Python's `match.group(n)` (for the groups the modules actually access). -/
def capGroup (n : Nat) (caps : Caps) : List Char := (capLookup n caps).getD []

/-! ## Regex notation helpers -/

/-- Literal regex from a string. -/
def rlit (s : String) : RE := .lit s.data

/-- The decimal digit characters. -/
def digitChars : List Char := ['0', '1', '2', '3', '4', '5', '6', '7', '8', '9']

/-- Python's ASCII `\s` characters. -/
def wsChars : List Char := [' ', '\t', '\n', '\x0d', '\x0b', '\x0c']

/-- `\d+` -/
def rdig : RE := .rep (.oneOf digitChars)

/-- `\s+` -/
def rws : RE := .rep (.oneOf wsChars)

/-- `[\d\.]+` -/
def rdigdot : RE := .rep (.oneOf ('.' :: digitChars))

/-- `.` (any character but newline) -/
def rany : RE := .cls (.noneOf ['\n'])

/-- `.+` -/
def ranyP : RE := .rep (.noneOf ['\n'])

/-- `[^\s,]+` -/
def rnotwsc : RE := .rep (.noneOf (',' :: wsChars))

/-- Concatenation of a list of regexes. -/
def rseq (l : List RE) : RE := l.foldr .seq .eps

/-- `\d+(?:\.\d+)?` -/
def rnum : RE := rseq [rdig, .opt (rseq [rlit ".", rdig])]

/-! ## Data model

Python dicts become association lists with insert-overwrite semantics
(matching dict key uniqueness and insertion-order preservation). -/

/-- Python float-or-int values stored by the modules. -/
inductive Value where
  | int (n : Int)
  | float (q : Rat)
deriving DecidableEq

/-- A per-sample record: metric key to value, insertion ordered. -/
abbrev Record := List (String × Value)

/-- A module's result mapping: sample name to record. -/
abbrev ModData := List (String × Record)

/-- Python `d[k] = v`: replaces in place when the key exists, appends
otherwise. -/
def dinsert {β : Type} (k : String) (v : β) : List (String × β) → List (String × β)
  | [] => [(k, v)]
  | (k', v') :: t => if k' = k then (k', v) :: t else (k', v') :: dinsert k v t

/-- Python `d.get(k)` / `k in d` on the association-list dict. -/
def dlookup {β : Type} (k : String) : List (String × β) → Option β
  | [] => none
  | (k', v) :: t => if k' = k then some v else dlookup k t

/-- The keys of a dict, in order. -/
def dkeys {β : Type} (d : List (String × β)) : List String := d.map Prod.fst

/-- A discovered log file as the host hands it to a module: the guessed
sample name and the text as a list of lines. -/
structure LogFile where
  s_name : String
  lines : List String
deriving DecidableEq

/-- Modelled from the spec: the host base-module services used by the modules
but not under `src/` — the sample-ignore filter and `clean_s_name`.  The spec
describes them only as "a sample-ignore filter" and a sample-name transform,
so they are carried as opaque-to-the-module parameters. -/
structure Host where
  clean_s_name : String → String
  ignored : String → Bool

/-- Modelled from the spec: `BaseMultiqcModule.ignore_samples` keeps exactly
the samples whose name the host's ignore filter does not match. -/
def ignore_samples (h : Host) (d : ModData) : ModData :=
  d.filter (fun kv => !h.ignored kv.1)

/-- The two no-samples signals raised by the modules
(`raise UserWarning` / `raise ModuleNoSamplesFound`). -/
inductive NoSamplesSignal where
  | userWarning
  | moduleNoSamplesFound
deriving DecidableEq

/-- Outcome of a module's `__init__`: either the no-samples signal aborts it,
or it completes with its report contributions. -/
inductive ModResult (R : Type) where
  | err (s : NoSamplesSignal)
  | ok (r : R)
deriving DecidableEq

/-! ## The shared regex-extraction loop

Every module runs, per line, over an ordered table of named patterns and, on a
match, writes one or more key/value pairs into the current record.  `pk`
is the module-specific store step (which keys it writes, from which capture
groups, and with which numeric conversion). -/

/-- One entry of the per-line loop: `if match: store`. -/
def regexStep (pk : String → Caps → Record) (l : String) (pd : Record)
    (kr : String × REA) : Record :=
  match reSearch kr.2 l with
  | some caps => (pk kr.1 caps).foldl (fun pd' av => dinsert av.1 av.2 pd') pd
  | none => pd

/-- The per-line loop `for k, r in regexes.items(): ...`. -/
def applyRegexes (pk : String → Caps → Record) (regs : List (String × REA))
    (l : String) (pd : Record) : Record :=
  regs.foldl (regexStep pk l) pd

/-- Store step `parsed_data[k] = float(match.group(1))`. -/
def pkFloat1 (k : String) (caps : Caps) : Record :=
  [(k, .float (pyFloat (capGroup 1 caps)))]

/-- Store step `parsed_data[k] = int(match.group(1))`. -/
def pkInt1 (k : String) (caps : Caps) : Record :=
  [(k, .int (pyInt (capGroup 1 caps)))]

/-- jax_trimmer paired-end store step: `parsed_data[k+"_1"] = float(group(1));
parsed_data[k+"_2"] = float(group(2))`. -/
def jaxPkPE (k : String) (caps : Caps) : Record :=
  [(k ++ "_1", .float (pyFloat (capGroup 1 caps))),
   (k ++ "_2", .float (pyFloat (capGroup 2 caps)))]

/-- jax_trimmer single-end store step: `parsed_data[k+"_1"] = float(group(1))`. -/
def jaxPkSE (k : String) (caps : Caps) : Record :=
  [(k ++ "_1", .float (pyFloat (capGroup 1 caps)))]

/-! ## coverage_metrics module -/

/-- `on_target_percent\s+(\d+(?:\.\d+)?)` -/
def cov_re_on_target : REA := ⟨false, rseq [rlit "on_target_percent", rws, .grp 1 rnum]⟩

/-- `coverage_uniformity\s+(\d+(?:\.\d+)?)` -/
def cov_re_uniformity : REA := ⟨false, rseq [rlit "coverage_uniformity", rws, .grp 1 rnum]⟩

/-- The `regexes` table of `parse_coverage_metrics_logs`, in source order. -/
def coverage_regexes : List (String × REA) :=
  [("on_target_percent", cov_re_on_target),
   ("coverage_uniformity", cov_re_uniformity)]

/-- `s_name = f["s_name"].replace("_amplicon_coverage_metrics", "")` -/
def coverage_sname (f : LogFile) : String :=
  pyReplace f.s_name "_amplicon_coverage_metrics"

/-- The `parsed_data` accumulated by the line loop of
`parse_coverage_metrics_logs`. -/
def coverage_record (lines : List String) : Record :=
  lines.foldl (fun pd l => applyRegexes pkFloat1 coverage_regexes l pd) []

/-- `MultiqcModule.parse_coverage_metrics_logs`. -/
def parse_coverage_metrics_logs (data : ModData) (f : LogFile) : ModData :=
  let r := coverage_record f.lines
  if r.length > 0 then dinsert (coverage_sname f) r data else data

/-- Keys of the general-statistics headers of coverage_metrics. -/
def coverage_headers : List String := ["on_target_percent", "coverage_uniformity"]

/-- Report contributions of a module without a plot: the data-file payload and
the general-statistics call `general_stats_addcols(data, headers)`. -/
structure SimpleReport where
  written : ModData
  gs_data : ModData
  gs_headers : List String
deriving DecidableEq

/-- coverage_metrics `MultiqcModule.__init__`. -/
def coverage_module (host : Host) (files : List LogFile) : ModResult SimpleReport :=
  let d0 := files.foldl parse_coverage_metrics_logs []
  let d := ignore_samples host d0
  if d.length = 0 then .err .userWarning
  else .ok ⟨d, d, coverage_headers⟩

/-! ## primerclip module -/

/-- `Total alignments processed:\s+(\d+)` -/
def pc_re_total : REA := ⟨false, rseq [rlit "Total alignments processed:", rws, .grp 1 rdig]⟩

/-- `Total mapped alignments:\s+(\d+)` -/
def pc_re_mapped : REA := ⟨false, rseq [rlit "Total mapped alignments:", rws, .grp 1 rdig]⟩

/-- `^Alignments trimmed by >= 1 base:\s+(\d+)` -/
def pc_re_trimmed : REA := ⟨true, rseq [rlit "Alignments trimmed by >= 1 base:", rws, .grp 1 rdig]⟩

/-- `Alignments trimmed to zero aligned length:\s+(\d+.\d+)` -/
def pc_re_zero : REA :=
  ⟨false, rseq [rlit "Alignments trimmed to zero aligned length:", rws,
    .grp 1 (rseq [rdig, rany, rdig])]⟩

/-- `% Alignments trimmed by >= 1 base:\s+(\d+.\d+)` -/
def pc_re_perc_trimmed : REA :=
  ⟨false, rseq [rlit "% Alignments trimmed by >= 1 base:", rws,
    .grp 1 (rseq [rdig, rany, rdig])]⟩

/-- `% Alignments mapped after trimming:\s+(\d+.\d+)` -/
def pc_re_perc_mapped : REA :=
  ⟨false, rseq [rlit "% Alignments mapped after trimming:", rws,
    .grp 1 (rseq [rdig, rany, rdig])]⟩

/-- The `regexes` table of `parse_primerclip_logs`, in source order. -/
def primerclip_regexes : List (String × REA) :=
  [("total_alignments", pc_re_total),
   ("total_mapped_alignments", pc_re_mapped),
   ("trimmed_by_ge_one_base", pc_re_trimmed),
   ("trimmed_to_zero", pc_re_zero),
   ("perc_trimmed_by_ge_one_base", pc_re_perc_trimmed),
   ("perc_mapped_after_trimming", pc_re_perc_mapped)]

/-- `s_name = f["s_name"].replace("_primerclip_runstats", "")` -/
def primerclip_sname (f : LogFile) : String :=
  pyReplace f.s_name "_primerclip_runstats"

/-- The `parsed_data` accumulated by the line loop of `parse_primerclip_logs`. -/
def primerclip_record (lines : List String) : Record :=
  lines.foldl (fun pd l => applyRegexes pkFloat1 primerclip_regexes l pd) []

/-- `MultiqcModule.parse_primerclip_logs`. -/
def parse_primerclip_logs (data : ModData) (f : LogFile) : ModData :=
  let r := primerclip_record f.lines
  if r.length > 0 then dinsert (primerclip_sname f) r data else data

/-- Keys of the general-statistics headers of primerclip, in source order. -/
def primerclip_headers : List String :=
  ["total_alignments", "total_mapped_alignments", "trimmed_by_ge_one_base",
   "trimmed_to_zero"]

/-- primerclip `MultiqcModule.__init__`. -/
def primerclip_module (host : Host) (files : List LogFile) : ModResult SimpleReport :=
  let d0 := files.foldl parse_primerclip_logs []
  let d := ignore_samples host d0
  if d.length = 0 then .err .userWarning
  else .ok ⟨d, d, primerclip_headers⟩

/-! ## hisat2 module -/

/-- `Total(?: unpaired)? reads: (\d+)` -/
def h2_re_unpaired_total : REA :=
  ⟨false, rseq [rlit "Total", .opt (rlit " unpaired"), rlit " reads: ", .grp 1 rdig]⟩

/-- `Aligned 0 times?: (\d+) \([\d\.]+%\)` -/
def h2_re_unpaired_none : REA :=
  ⟨false, rseq [rlit "Aligned 0 time", .opt (rlit "s"), rlit ": ", .grp 1 rdig,
    rlit " (", rdigdot, rlit "%)"]⟩

/-- `Aligned 1 time: (\d+) \([\d\.]+%\)` -/
def h2_re_unpaired_one : REA :=
  ⟨false, rseq [rlit "Aligned 1 time: ", .grp 1 rdig, rlit " (", rdigdot, rlit "%)"]⟩

/-- `Aligned >1 times: (\d+) \([\d\.]+%\)` -/
def h2_re_unpaired_multi : REA :=
  ⟨false, rseq [rlit "Aligned >1 times: ", .grp 1 rdig, rlit " (", rdigdot, rlit "%)"]⟩

/-- `Total pairs: (\d+)` -/
def h2_re_paired_total : REA := ⟨false, rseq [rlit "Total pairs: ", .grp 1 rdig]⟩

/-- `Aligned concordantly or discordantly 0 time: (\d+) \([\d\.]+%\)` -/
def h2_re_paired_none : REA :=
  ⟨false, rseq [rlit "Aligned concordantly or discordantly 0 time: ", .grp 1 rdig,
    rlit " (", rdigdot, rlit "%)"]⟩

/-- `Aligned concordantly 1 time: (\d+) \([\d\.]+%\)` -/
def h2_re_paired_one : REA :=
  ⟨false, rseq [rlit "Aligned concordantly 1 time: ", .grp 1 rdig,
    rlit " (", rdigdot, rlit "%)"]⟩

/-- `Aligned concordantly >1 times: (\d+) \([\d\.]+%\)` -/
def h2_re_paired_multi : REA :=
  ⟨false, rseq [rlit "Aligned concordantly >1 times: ", .grp 1 rdig,
    rlit " (", rdigdot, rlit "%)"]⟩

/-- `Aligned discordantly 1 time: (\d+) \([\d\.]+%\)` -/
def h2_re_paired_discord : REA :=
  ⟨false, rseq [rlit "Aligned discordantly 1 time: ", .grp 1 rdig,
    rlit " (", rdigdot, rlit "%)"]⟩

/-- The `regexes` table of `parse_hisat2_logs`, in source order. -/
def hisat2_regexes : List (String × REA) :=
  [("unpaired_total", h2_re_unpaired_total),
   ("unpaired_aligned_none", h2_re_unpaired_none),
   ("unpaired_aligned_one", h2_re_unpaired_one),
   ("unpaired_aligned_multi", h2_re_unpaired_multi),
   ("paired_total", h2_re_paired_total),
   ("paired_aligned_none", h2_re_paired_none),
   ("paired_aligned_one", h2_re_paired_one),
   ("paired_aligned_multi", h2_re_paired_multi),
   ("paired_aligned_discord_one", h2_re_paired_discord)]

/-- `hisat2 .+ -[1U] ([^\s,]+)` -/
def h2_re_hscmd : REA :=
  ⟨false, rseq [rlit "hisat2 ", ranyP, rlit " -", .cls (.oneOf ['1', 'U']),
    rlit " ", .grp 1 rnotwsc]⟩

/-- `Overall alignment rate: ([\d\.]+)%` -/
def h2_re_overall : REA :=
  ⟨false, rseq [rlit "Overall alignment rate: ", .grp 1 rdigdot, rlit "%"]⟩

/-- The sample name after the `hscmd` check of one hisat2 line: a line that
looks like a logged `hisat2` command updates it via `clean_s_name`. -/
def hisat2_line_sname (host : Host) (sn : String) (line : String) : String :=
  match reSearch h2_re_hscmd line with
  | some caps => host.clean_s_name ⟨capGroup 1 caps⟩
  | none => sn

/-- Loop state of `parse_hisat2_logs`: current sample name, the record being
accumulated, and the module's result mapping. -/
structure H2Acc where
  s_name : String
  pd : Record
  data : ModData
deriving DecidableEq

/-- One line of the `parse_hisat2_logs` loop: the `hscmd` sample-name update,
the regex table, then the terminating `Overall alignment rate` check, which
stores the record and resets the accumulator. -/
def hisat2_step (host : Host) (f : LogFile) (st : H2Acc) (line : String) : H2Acc :=
  let s1 := hisat2_line_sname host st.s_name line
  let pd1 := applyRegexes pkInt1 hisat2_regexes line st.pd
  match reSearch h2_re_overall line with
  | some caps =>
    let pd2 := dinsert "overall_alignment_rate" (.float (pyFloat (capGroup 1 caps))) pd1
    ⟨f.s_name, [], dinsert s1 pd2 st.data⟩
  | none => ⟨s1, pd1, st.data⟩

/-- `MultiqcModule.parse_hisat2_logs`. -/
def parse_hisat2_logs (host : Host) (data : ModData) (f : LogFile) : ModData :=
  (f.lines.foldl (hisat2_step host f) ⟨f.s_name, [], data⟩).data

/-- `float(data[k])`: the Python float coercion applied before halving. -/
def valToRat : Value → Rat
  | .int n => mkRat n 1
  | .float q => q

/-- `data[k] = float(data[k]) / 2.0` for one key, when present. -/
def halveKey (rec : Record) (k : String) : Record :=
  match dlookup k rec with
  | some v => dinsert k (.float (mkRat (valToRat v).num (2 * (valToRat v).den))) rec
  | none => rec

/-- The four mate-count keys halved for paired-end samples. -/
def h2_mate_keys : List String :=
  ["unpaired_total", "unpaired_aligned_none", "unpaired_aligned_one",
   "unpaired_aligned_multi"]

/-- The in-place mutation `hisat2_alignment_plot` performs on one sample's
record: for records with `paired_total`, the mate counts are halved. -/
def h2_plot_record (rec : Record) : Record :=
  if (dlookup "paired_total" rec).isSome then h2_mate_keys.foldl halveKey rec else rec

/-- `MultiqcModule.hisat2_alignment_plot`: returns the module mapping after
the in-place mutation (the dicts in `sedata`/`pedata` are the same objects as
in `self.hisat2_data`), and the two bar-chart payloads. -/
def hisat2_alignment_plot (d : ModData) : ModData × Option ModData × Option ModData :=
  let d' := d.map (fun kv => (kv.1, h2_plot_record kv.2))
  let sedata := d'.filter (fun kv => !(dlookup "paired_total" kv.2).isSome)
  let pedata := d'.filter (fun kv => (dlookup "paired_total" kv.2).isSome)
  (d', (if sedata.length > 0 then some sedata else none),
       (if pedata.length > 0 then some pedata else none))

/-- Report contributions of the hisat2 module, in call order: the data file
and general-statistics payloads are taken before the plot stage runs, and
`final_data` is the module mapping after the plot stage's in-place halving. -/
structure H2Report where
  written : ModData
  gs_data : ModData
  gs_headers : List String
  final_data : ModData
  se_plot : Option ModData
  pe_plot : Option ModData
deriving DecidableEq

/-- hisat2 `MultiqcModule.__init__`. -/
def hisat2_module (host : Host) (files : List LogFile) : ModResult H2Report :=
  let d0 := files.foldl (parse_hisat2_logs host) []
  let d := ignore_samples host d0
  if d.length = 0 then .err .moduleNoSamplesFound
  else
    let p := hisat2_alignment_plot d
    .ok ⟨d, d, ["overall_alignment_rate"], p.1, p.2.1, p.2.2⟩

/-! ## jax_trimmer module

The paired-end trim-length patterns `((\d+(?:\.\d+)?))\s+((\d+(?:\.\d+)?))`
have doubled parentheses, so Python's group 2 is the inner copy of the first
column; the group numbers below follow the order of `(` in each pattern. -/

/-- `Percentage of HQ reads\s+(\d+.\d+)%\s+(\d+.\d+)` (the `.` is any
character). -/
def jax_re_perc_hq_pe : REA :=
  ⟨false, rseq [rlit "Percentage of HQ reads", rws, .grp 1 (rseq [rdig, rany, rdig]),
    rlit "%", rws, .grp 2 (rseq [rdig, rany, rdig])]⟩

/-- `Total number of reads\s+(\d+)\s+(\d+)` -/
def jax_re_total_reads_pe : REA :=
  ⟨false, rseq [rlit "Total number of reads", rws, .grp 1 rdig, rws, .grp 2 rdig]⟩

/-- `Total number of HQ filtered reads\s+(\d+)\s+(\d+)` -/
def jax_re_total_hq_pe : REA :=
  ⟨false, rseq [rlit "Total number of HQ filtered reads", rws, .grp 1 rdig, rws,
    .grp 2 rdig]⟩

/-- `Reads passing filter\s+(\d+)\s+(\d+)` -/
def jax_re_reads_passing_pe : REA :=
  ⟨false, rseq [rlit "Reads passing filter", rws, .grp 1 rdig, rws, .grp 2 rdig]⟩

/-- `Percent reads passing filter\s+(\d+.\d+)%\s+(\d+.\d+)` -/
def jax_re_perc_passing_pe : REA :=
  ⟨false, rseq [rlit "Percent reads passing filter", rws,
    .grp 1 (rseq [rdig, rany, rdig]), rlit "%", rws, .grp 2 (rseq [rdig, rany, rdig])]⟩

/-- `Max Trimmed Length\s+((\d+(?:\.\d+)?))\s+((\d+(?:\.\d+)?))` -/
def jax_re_max_trim_pe : REA :=
  ⟨false, rseq [rlit "Max Trimmed Length", rws, .grp 1 (.grp 2 rnum), rws,
    .grp 3 (.grp 4 rnum)]⟩

/-- `Min Trimmed Length\s+((\d+(?:\.\d+)?))\s+((\d+(?:\.\d+)?))` -/
def jax_re_min_trim_pe : REA :=
  ⟨false, rseq [rlit "Min Trimmed Length", rws, .grp 1 (.grp 2 rnum), rws,
    .grp 3 (.grp 4 rnum)]⟩

/-- `Mean Trimmed Length\s+((\d+(?:\.\d+)?))\s+((\d+(?:\.\d+)?))` -/
def jax_re_mean_trim_pe : REA :=
  ⟨false, rseq [rlit "Mean Trimmed Length", rws, .grp 1 (.grp 2 rnum), rws,
    .grp 3 (.grp 4 rnum)]⟩

/-- The paired-end `regexes` table of `parse_jax_trimmer_logs`, in source
order. -/
def jax_regexes_pe : List (String × REA) :=
  [("perc_hq", jax_re_perc_hq_pe),
   ("total_reads", jax_re_total_reads_pe),
   ("total_hq_reads", jax_re_total_hq_pe),
   ("reads_passing", jax_re_reads_passing_pe),
   ("perc_passing", jax_re_perc_passing_pe),
   ("max_trim_len", jax_re_max_trim_pe),
   ("min_trim_len", jax_re_min_trim_pe),
   ("mean_trim_len", jax_re_mean_trim_pe)]

/-- `Percentage of HQ reads\s+(\d+.\d+)%` -/
def jax_re_perc_hq_se : REA :=
  ⟨false, rseq [rlit "Percentage of HQ reads", rws, .grp 1 (rseq [rdig, rany, rdig]),
    rlit "%"]⟩

/-- `Total number of reads\s+(\d+)` -/
def jax_re_total_reads_se : REA :=
  ⟨false, rseq [rlit "Total number of reads", rws, .grp 1 rdig]⟩

/-- `Total number of HQ filtered reads\s+(\d+)` -/
def jax_re_total_hq_se : REA :=
  ⟨false, rseq [rlit "Total number of HQ filtered reads", rws, .grp 1 rdig]⟩

/-- `Reads passing filter\s+(\d+)` -/
def jax_re_reads_passing_se : REA :=
  ⟨false, rseq [rlit "Reads passing filter", rws, .grp 1 rdig]⟩

/-- `Percent reads passing filter\s+(\d+.\d+)%` -/
def jax_re_perc_passing_se : REA :=
  ⟨false, rseq [rlit "Percent reads passing filter", rws,
    .grp 1 (rseq [rdig, rany, rdig]), rlit "%"]⟩

/-- `Max Trimmed Length\s+((\d+(?:\.\d+)?))` -/
def jax_re_max_trim_se : REA :=
  ⟨false, rseq [rlit "Max Trimmed Length", rws, .grp 1 (.grp 2 rnum)]⟩

/-- `Min Trimmed Length\s+((\d+(?:\.\d+)?))` -/
def jax_re_min_trim_se : REA :=
  ⟨false, rseq [rlit "Min Trimmed Length", rws, .grp 1 (.grp 2 rnum)]⟩

/-- `Mean Trimmed Length\s+((\d+(?:\.\d+)?))` -/
def jax_re_mean_trim_se : REA :=
  ⟨false, rseq [rlit "Mean Trimmed Length", rws, .grp 1 (.grp 2 rnum)]⟩

/-- The single-end `regexes_se` table of `parse_jax_trimmer_logs`, in source
order. -/
def jax_regexes_se : List (String × REA) :=
  [("perc_hq", jax_re_perc_hq_se),
   ("total_reads", jax_re_total_reads_se),
   ("total_hq_reads", jax_re_total_hq_se),
   ("reads_passing", jax_re_reads_passing_se),
   ("perc_passing", jax_re_perc_passing_se),
   ("max_trim_len", jax_re_max_trim_se),
   ("min_trim_len", jax_re_min_trim_se),
   ("mean_trim_len", jax_re_mean_trim_se)]

/-- One line of the `parse_jax_trimmer_logs` loop, on state
`(pe_bool, parsed_data)`: lines containing `Read` only toggle the paired-end
marker; all other lines run the regex table selected by the current marker. -/
def jax_line_step (st : Bool × Record) (l : String) : Bool × Record :=
  if hasSub "Read".data l.data then
    (if hasSub "Read 2".data l.data then true else st.1, st.2)
  else if st.1 then (st.1, applyRegexes jaxPkPE jax_regexes_pe l st.2)
  else (st.1, applyRegexes jaxPkSE jax_regexes_se l st.2)

/-- `s_name = f["s_name"].rsplit("_", 1)[0]` -/
def jax_sname (f : LogFile) : String := rsplitHead f.s_name

/-- The `(self.pe_bool, parsed_data)` state after the line loop of
`parse_jax_trimmer_logs` (`self.pe_bool` is reset to `False` at the start of
each file's parse). -/
def jax_file_state (f : LogFile) : Bool × Record :=
  f.lines.foldl jax_line_step (false, [])

/-- `MultiqcModule.parse_jax_trimmer_logs`: returns the updated mapping and
the `self.pe_bool` instance attribute it leaves behind. -/
def parse_jax_trimmer_logs (data : ModData) (f : LogFile) : ModData × Bool :=
  let st := jax_file_state f
  (if st.2.length > 0 then dinsert (jax_sname f) st.2 data else data, st.1)

/-- Keys of the jax_trimmer general-statistics headers: the `_2` columns are
appended only when `self.pe_bool` is still set. -/
def jax_headers (pe : Bool) : List String :=
  ["total_reads_1", "total_hq_reads_1", "reads_passing_1", "min_trim_len_1",
   "mean_trim_len_1", "max_trim_len_1"] ++
  (if pe then
    ["total_reads_2", "total_hq_reads_2", "reads_passing_2", "min_trim_len_2",
     "mean_trim_len_2", "max_trim_len_2"]
   else [])

/-- jax_trimmer `MultiqcModule.__init__` (the parse loop threads the
`self.pe_bool` attribute; the header table reads its final value). -/
def jax_module (host : Host) (files : List LogFile) : ModResult SimpleReport :=
  let st := files.foldl (fun st f => parse_jax_trimmer_logs st.1 f) ([], false)
  let d := ignore_samples host st.1
  if d.length = 0 then .err .userWarning
  else .ok ⟨d, d, jax_headers st.2⟩

/-! ## Derived definitions and concrete inputs used by the claims -/

/-- The value the coverage_metrics line loop stores for key `k` when line `l`
matches that key's regex, if it does. -/
def covVal (k : String) (l : String) : Option Value :=
  match dlookup k coverage_regexes with
  | some ra => (reSearch ra l).map (fun caps => .float (pyFloat (capGroup 1 caps)))
  | none => none

/-- A host that cleans nothing and ignores nothing. -/
def hostId : Host := ⟨id, fun _ => false⟩

/-- A host whose ignore filter removes sample `S`. -/
def hostIgS : Host := ⟨id, fun s => s == "S"⟩

/-- Whether a jax_trimmer log file contains a `Read 2` marker line. -/
def jaxHasMarker (f : LogFile) : Bool :=
  f.lines.any (fun l => hasSub "Read 2".data l.data)

/-- A paired-end jax_trimmer log whose `Reads passing filter` line matches the
`reads_passing` pattern. -/
def c1_file : LogFile := ⟨"SAMP_R1", ["Read 2", "Reads passing filter  100  200"]⟩

/-- A coverage log in which the `on_target_percent` pattern matches two lines
with different captures. -/
def c2_file : LogFile :=
  ⟨"S_amplicon_coverage_metrics", ["on_target_percent 1.5", "on_target_percent 2.5"]⟩

/-- A minimal matching primerclip log. -/
def c4_file : LogFile :=
  ⟨"S_primerclip_runstats", ["Total alignments processed:    1000"]⟩

/-- A hisat2 log holding two logical samples, each closed by an
`Overall alignment rate` line after a logged `hisat2` command. -/
def c5_file : LogFile :=
  ⟨"smp", ["hisat2 -x g -1 A.fq", "Total pairs: 4", "Overall alignment rate: 90.0%",
           "hisat2 -x g -1 B.fq", "Total pairs: 6", "Overall alignment rate: 80.0%"]⟩

/-- A paired-end jax_trimmer log (contains the `Read 2` marker). -/
def c6_pe_file : LogFile := ⟨"A_R1", ["Read 2", "Total number of reads  10  20"]⟩

/-- A single-end jax_trimmer log (no marker line). -/
def c6_se_file : LogFile := ⟨"B_R1", ["Total number of reads  5"]⟩

/-- A stored hisat2 mapping with one paired-end sample carrying a mate count. -/
def c7_data : ModData :=
  [("S", [("paired_total", Value.int 10), ("unpaired_total", Value.int 8)])]

/-- The primerclip log of the spec's `Total alignments processed` example. -/
def c8_file : LogFile :=
  ⟨"S_primerclip_runstats", ["Total alignments processed:    1000"]⟩

/-- A coverage log whose sample name `S` the `hostIgS` filter removes. -/
def c9_file : LogFile := ⟨"S_amplicon_coverage_metrics", ["on_target_percent 3.5"]⟩

/-- A hisat2 log with a matching count line but no terminating
`Overall alignment rate` line. -/
def c10_h2_file : LogFile := ⟨"smp", ["Total pairs: 5"]⟩

/-- A coverage log with one matching line. -/
def c10_cov_file : LogFile := ⟨"C_amplicon_coverage_metrics", ["coverage_uniformity 88"]⟩

/-- A primerclip log with one matching line. -/
def c10_pc_file : LogFile := ⟨"P_primerclip_runstats", ["Total mapped alignments:  7"]⟩

/-- A single-end jax_trimmer log with one matching line. -/
def c10_jax_file : LogFile := ⟨"J_R1", ["Mean Trimmed Length  70.5"]⟩

/-! ## Dictionary lemmas -/

theorem dlookup_dinsert_self {β : Type} (k : String) (v : β) (d : List (String × β)) :
    dlookup k (dinsert k v d) = some v := by
  induction d with
  | nil => simp [dinsert, dlookup]
  | cons kv t ih =>
    obtain ⟨k', v'⟩ := kv
    by_cases h : k' = k
    · simp [dinsert, dlookup, h]
    · simp [dinsert, dlookup, h, ih]

theorem dlookup_dinsert_ne {β : Type} (k q : String) (v : β) (d : List (String × β))
    (h : k ≠ q) : dlookup q (dinsert k v d) = dlookup q d := by
  induction d with
  | nil => simp [dinsert, dlookup, h]
  | cons kv t ih =>
    obtain ⟨k', v'⟩ := kv
    by_cases h' : k' = k
    · subst h'; simp [dinsert, dlookup, h]
    · by_cases hq : k' = q
      · simp [dinsert, dlookup, h', hq, Ne.symm h]
      · simp [dinsert, dlookup, h', hq, ih]

theorem mem_dkeys_dinsert {β : Type} (k q : String) (v : β) (d : List (String × β)) :
    q ∈ dkeys (dinsert k v d) ↔ q = k ∨ q ∈ dkeys d := by
  induction d with
  | nil => simp [dinsert, dkeys]
  | cons kv t ih =>
    obtain ⟨k', v'⟩ := kv
    by_cases h : k' = k
    · subst h; simp [dinsert, dkeys]; try tauto
    · simp [dinsert, dkeys, h] at *
      try tauto

theorem nodup_dkeys_dinsert {β : Type} (k : String) (v : β) (d : List (String × β))
    (h : (dkeys d).Nodup) : (dkeys (dinsert k v d)).Nodup := by
  induction d with
  | nil => simp [dinsert, dkeys]
  | cons kv t ih =>
    obtain ⟨k', v'⟩ := kv
    simp only [dkeys, List.map_cons, List.nodup_cons] at h
    by_cases hk : k' = k
    · subst hk
      simpa [dinsert, dkeys, List.nodup_cons] using h
    · simp only [dinsert, hk, if_false, dkeys, List.map_cons, List.nodup_cons]
      refine ⟨fun hm => ?_, ih h.2⟩
      rcases (mem_dkeys_dinsert k k' v t).1 hm with rfl | hm'
      · exact hk rfl
      · exact h.1 hm'

theorem dlookup_map {β γ : Type} (g : β → γ) (d : List (String × β)) (q : String) :
    dlookup q (d.map (fun kv => (kv.1, g kv.2))) = (dlookup q d).map g := by
  induction d with
  | nil => simp [dlookup]
  | cons kv t ih =>
    obtain ⟨k', v'⟩ := kv
    by_cases h : k' = q
    · simp [dlookup, h]
    · simp [dlookup, h, ih]

/-! ## Regex-loop lemmas -/

theorem applyRegexes_cons (pk : String → Caps → Record) (x : String × REA)
    (ys : List (String × REA)) (l : String) (pd : Record) :
    applyRegexes pk (x :: ys) l pd = applyRegexes pk ys l (regexStep pk l pd x) := rfl

theorem applyRegexes_append (pk : String → Caps → Record) (xs ys : List (String × REA))
    (l : String) (pd : Record) :
    applyRegexes pk (xs ++ ys) l pd = applyRegexes pk ys l (applyRegexes pk xs l pd) := by
  simp [applyRegexes, List.foldl_append]

theorem foldl_dinsert_not (ws : Record) (q : String)
    (h : ∀ p ∈ ws, p.1 ≠ q) (pd : Record) :
    dlookup q (ws.foldl (fun pd' av => dinsert av.1 av.2 pd') pd) = dlookup q pd := by
  induction ws generalizing pd with
  | nil => rfl
  | cons av t ih =>
    simp only [List.foldl_cons]
    rw [ih (fun p hp => h p (List.mem_cons_of_mem _ hp))]
    exact dlookup_dinsert_ne _ _ _ _ (h av (List.mem_cons_self _ _))

theorem regexStep_not (pk : String → Caps → Record) (l : String) (pd : Record)
    (kr : String × REA) (q : String)
    (h : ∀ caps, reSearch kr.2 l = some caps → ∀ p ∈ pk kr.1 caps, p.1 ≠ q) :
    dlookup q (regexStep pk l pd kr) = dlookup q pd := by
  unfold regexStep
  cases hm : reSearch kr.2 l with
  | none => rfl
  | some caps => exact foldl_dinsert_not _ _ (h caps hm) _

theorem applyRegexes_not (pk : String → Caps → Record) (regs : List (String × REA))
    (l : String) (q : String)
    (h : ∀ kr ∈ regs, ∀ caps, reSearch kr.2 l = some caps → ∀ p ∈ pk kr.1 caps, p.1 ≠ q)
    (pd : Record) :
    dlookup q (applyRegexes pk regs l pd) = dlookup q pd := by
  induction regs generalizing pd with
  | nil => rfl
  | cons kr t ih =>
    rw [applyRegexes_cons]
    rw [ih (fun x hx => h x (List.mem_cons_of_mem _ hx))]
    exact regexStep_not pk l pd kr q (h kr (List.mem_cons_self _ _))

/-! ## hisat2 fold lemmas -/

theorem hisat2_fold_no_overall (host : Host) (f : LogFile) (lines : List String)
    (h : ∀ l ∈ lines, reSearch h2_re_overall l = none) :
    ∀ st : H2Acc, (lines.foldl (hisat2_step host f) st).data = st.data := by
  induction lines with
  | nil => intro st; rfl
  | cons l t ih =>
    intro st
    simp only [List.foldl_cons]
    rw [ih (fun x hx => h x (List.mem_cons_of_mem _ hx))]
    have hl := h l (List.mem_cons_self _ _)
    simp [hisat2_step, hl]

theorem hisat2_fold_nodup (host : Host) (f : LogFile) (lines : List String) :
    ∀ st : H2Acc, (dkeys st.data).Nodup →
      (dkeys (lines.foldl (hisat2_step host f) st).data).Nodup := by
  induction lines with
  | nil => intro st h; exact h
  | cons l t ih =>
    intro st h
    simp only [List.foldl_cons]
    apply ih
    cases hm : reSearch h2_re_overall l with
    | some caps =>
      simp only [hisat2_step, hm]
      exact nodup_dkeys_dinsert _ _ _ h
    | none => simpa [hisat2_step, hm] using h

/-! ## Claims -/

/-- C8 (confirmed): parsing a primerclip log containing
`Total alignments processed:    1000` stores `total_alignments` as the float
`1000.0` (not the int `1000`) in that sample's record. -/
theorem c8_total_alignments_float :
    parse_primerclip_logs [] c8_file = [("S", [("total_alignments", Value.float 1000)])] := by
  decide

/-- C1 (code bug): the jax_trimmer `reads_passing` pattern matches the line
`Reads passing filter  100  200` with captures 100 and 200, yet parsing a
paired-end log containing that line stores nothing at all — every matching
line contains `Read`, so the `if 'Read' in l` marker guard diverts it away
from the regex table and the `reads_passing_1` / `reads_passing_2` keys can
never be populated (though the module's own general-statistics headers
declare those columns). -/
theorem c1_reads_passing_unreachable :
    dlookup "reads_passing" jax_regexes_pe = some jax_re_reads_passing_pe ∧
    (reSearch jax_re_reads_passing_pe "Reads passing filter  100  200").map
      (fun c => (capGroup 1 c, capGroup 2 c)) = some ("100".data, "200".data) ∧
    hasSub "Read".data "Reads passing filter  100  200".data = true ∧
    parse_jax_trimmer_logs [] c1_file = ([], true) := by
  refine ⟨by decide, by decide, by decide, by decide⟩

/-- C3 (confirmed): when the parse pass leaves the per-sample mapping empty,
each module raises its no-samples signal (`UserWarning`, or
`ModuleNoSamplesFound` for hisat2) and produces no report contributions. -/
theorem c3_no_samples_signal (host : Host) (files : List LogFile)
    (hc : files.foldl parse_coverage_metrics_logs [] = [])
    (hh : files.foldl (parse_hisat2_logs host) [] = [])
    (hj : (files.foldl (fun st f => parse_jax_trimmer_logs st.1 f) ([], false)).1 = [])
    (hp : files.foldl parse_primerclip_logs [] = []) :
    coverage_module host files = .err .userWarning ∧
    hisat2_module host files = .err .moduleNoSamplesFound ∧
    jax_module host files = .err .userWarning ∧
    primerclip_module host files = .err .userWarning := by
  refine ⟨?_, ?_, ?_, ?_⟩ <;>
    simp [coverage_module, hisat2_module, jax_module, primerclip_module,
      ignore_samples, hc, hh, hj, hp]

/-- Witness for C3 at the empty file set. -/
theorem c3_witness :
    coverage_module hostId [] = .err .userWarning ∧
    hisat2_module hostId [] = .err .moduleNoSamplesFound ∧
    jax_module hostId [] = .err .userWarning ∧
    primerclip_module hostId [] = .err .userWarning :=
  c3_no_samples_signal hostId [] rfl rfl rfl rfl

/-- C9 (confirmed): the no-samples check runs on the mapping after the
sample-ignore filter, so a run whose parsed samples are all ignored raises
the signal exactly as if nothing had matched. -/
theorem c9_ignore_filter_before_check (host : Host) (files : List LogFile)
    (hc : ignore_samples host (files.foldl parse_coverage_metrics_logs []) = [])
    (hh : ignore_samples host (files.foldl (parse_hisat2_logs host) []) = []) :
    coverage_module host files = .err .userWarning ∧
    hisat2_module host files = .err .moduleNoSamplesFound := by
  refine ⟨?_, ?_⟩ <;> simp [coverage_module, hisat2_module, hc, hh]

/-- Witness for C9: one coverage file parses successfully, its sample `S` is
then removed by the ignore filter, and both modules raise the signal. -/
theorem c9_witness :
    ([c9_file].foldl parse_coverage_metrics_logs [] ≠ []) ∧
    coverage_module hostIgS [c9_file] = .err .userWarning ∧
    hisat2_module hostIgS [c9_file] = .err .moduleNoSamplesFound :=
  ⟨by decide, c9_ignore_filter_before_check hostIgS [c9_file] (by decide) (by decide)⟩

/-- C10 (confirmed): hisat2 stores a record only on a terminating
`Overall alignment rate` line — a file with no such line changes nothing —
while the other three modules store any non-empty parsed record at end of
file. -/
theorem c10_terminating_line_required (host : Host) (data : ModData)
    (f g p j : LogFile)
    (hf : ∀ l ∈ f.lines, reSearch h2_re_overall l = none)
    (hg : coverage_record g.lines ≠ [])
    (hp : primerclip_record p.lines ≠ [])
    (hj : (jax_file_state j).2 ≠ []) :
    parse_hisat2_logs host data f = data ∧
    dlookup (coverage_sname g) (parse_coverage_metrics_logs data g) =
      some (coverage_record g.lines) ∧
    dlookup (primerclip_sname p) (parse_primerclip_logs data p) =
      some (primerclip_record p.lines) ∧
    dlookup (jax_sname j) ((parse_jax_trimmer_logs data j).1) =
      some ((jax_file_state j).2) := by
  refine ⟨?_, ?_, ?_, ?_⟩
  · exact hisat2_fold_no_overall host f f.lines hf _
  · have h : (coverage_record g.lines).length > 0 := List.length_pos.mpr hg
    unfold parse_coverage_metrics_logs
    simp only [gt_iff_lt, h, if_true]
    exact dlookup_dinsert_self _ _ _
  · have h : (primerclip_record p.lines).length > 0 := List.length_pos.mpr hp
    unfold parse_primerclip_logs
    simp only [gt_iff_lt, h, if_true]
    exact dlookup_dinsert_self _ _ _
  · have h : ((jax_file_state j).2).length > 0 := List.length_pos.mpr hj
    unfold parse_jax_trimmer_logs
    simp only [gt_iff_lt, h, if_true]
    exact dlookup_dinsert_self _ _ _

/-- Witness for C10: a hisat2 file with a matching count line but no overall
line leaves the mapping empty; matching coverage, primerclip and jax files
are stored at end of file. -/
theorem c10_witness :
    parse_hisat2_logs hostId [] c10_h2_file = [] ∧
    dlookup (coverage_sname c10_cov_file)
      (parse_coverage_metrics_logs [] c10_cov_file) =
        some (coverage_record c10_cov_file.lines) ∧
    dlookup (primerclip_sname c10_pc_file)
      (parse_primerclip_logs [] c10_pc_file) =
        some (primerclip_record c10_pc_file.lines) ∧
    dlookup (jax_sname c10_jax_file)
      ((parse_jax_trimmer_logs [] c10_jax_file).1) =
        some ((jax_file_state c10_jax_file).2) :=
  c10_terminating_line_required hostId [] c10_h2_file c10_cov_file c10_pc_file
    c10_jax_file (by decide) (by decide) (by decide) (by decide)

/-- C4 (confirmed): a re-parsed sample name overwrites the prior record with
no exception — the stored record for that name is the newly parsed one — and
sample names stay unique keys of the mapping after every parse step. -/
theorem c4_duplicate_overwrites (host : Host) (d : ModData) (f : LogFile)
    (hnd : (dkeys d).Nodup) :
    (dkeys (parse_primerclip_logs d f)).Nodup ∧
    (dkeys (parse_hisat2_logs host d f)).Nodup ∧
    (primerclip_record f.lines ≠ [] →
      dlookup (primerclip_sname f) (parse_primerclip_logs d f) =
        some (primerclip_record f.lines)) := by
  refine ⟨?_, ?_, fun hr => ?_⟩
  · unfold parse_primerclip_logs
    by_cases h : (primerclip_record f.lines).length > 0
    · simp only [gt_iff_lt] at h
      simp only [gt_iff_lt, h, if_true]
      exact nodup_dkeys_dinsert _ _ _ hnd
    · simp only [gt_iff_lt] at h
      simp only [gt_iff_lt, h, if_false]
      exact hnd
  · exact hisat2_fold_nodup host f f.lines _ hnd
  · have h : (primerclip_record f.lines).length > 0 := List.length_pos.mpr hr
    unfold parse_primerclip_logs
    simp only [gt_iff_lt, h, if_true]
    exact dlookup_dinsert_self _ _ _

/-- Witness for C4: sample `S` already has a record; re-parsing a file for
`S` replaces it with the new record and keeps the keys unique. -/
theorem c4_witness :
    dlookup "S" [("S", [("total_alignments", Value.float 1)])] ≠ none ∧
    ((dkeys (parse_primerclip_logs [("S", [("total_alignments", Value.float 1)])] c4_file)).Nodup ∧
     (dkeys (parse_hisat2_logs hostId [("S", [("total_alignments", Value.float 1)])] c4_file)).Nodup ∧
     (primerclip_record c4_file.lines ≠ [] →
       dlookup (primerclip_sname c4_file)
         (parse_primerclip_logs [("S", [("total_alignments", Value.float 1)])] c4_file) =
           some (primerclip_record c4_file.lines))) :=
  ⟨by decide, c4_duplicate_overwrites hostId _ c4_file (by decide)⟩

/-! ## C2: the per-key value stored by the coverage line loop -/

theorem regexStep_pkFloat1_some (l : String) (pd : Record) (k : String) (ra : REA)
    (caps : Caps) (hm : reSearch ra l = some caps) :
    regexStep pkFloat1 l pd (k, ra) =
      dinsert k (.float (pyFloat (capGroup 1 caps))) pd := by
  simp [regexStep, hm, pkFloat1]

theorem regexStep_nomatch (pk : String → Caps → Record) (l : String) (pd : Record)
    (kr : String × REA) (hm : reSearch kr.2 l = none) : regexStep pk l pd kr = pd := by
  simp [regexStep, hm]

theorem coverage_line_lookup (q l : String) (pd : Record) :
    dlookup q (applyRegexes pkFloat1 coverage_regexes l pd) =
      (covVal q l).or (dlookup q pd) := by
  have e : applyRegexes pkFloat1 coverage_regexes l pd =
      regexStep pkFloat1 l (regexStep pkFloat1 l pd
        ("on_target_percent", cov_re_on_target))
        ("coverage_uniformity", cov_re_uniformity) := rfl
  by_cases h1 : q = "on_target_percent"
  · subst h1
    rw [e, regexStep_not pkFloat1 l _ _ _
      (by intro caps hm' p hp; simp only [pkFloat1, List.mem_singleton] at hp; subst hp; simp)]
    cases hm : reSearch cov_re_on_target l with
    | some caps =>
      rw [regexStep_pkFloat1_some _ _ _ _ _ hm, dlookup_dinsert_self]
      simp [covVal, dlookup, coverage_regexes, hm, Option.or]
    | none =>
      rw [regexStep_nomatch _ _ _ _ hm]
      simp [covVal, dlookup, coverage_regexes, hm, Option.or]
  · by_cases h2 : q = "coverage_uniformity"
    · subst h2
      rw [e]
      cases hm : reSearch cov_re_uniformity l with
      | some caps =>
        rw [regexStep_pkFloat1_some _ _ _ _ _ hm, dlookup_dinsert_self]
        simp [covVal, dlookup, coverage_regexes, hm, Option.or]
      | none =>
        rw [regexStep_nomatch _ _ _ _ hm,
          regexStep_not pkFloat1 l _ _ _
            (by intro caps hm' p hp
                simp only [pkFloat1, List.mem_singleton] at hp; subst hp; simp)]
        simp [covVal, dlookup, coverage_regexes, hm, Option.or]
    · have hcov : covVal q l = none := by
        simp [covVal, dlookup, coverage_regexes, Ne.symm h1, Ne.symm h2]
      rw [hcov]
      show dlookup q (applyRegexes pkFloat1 coverage_regexes l pd) = dlookup q pd
      apply applyRegexes_not
      intro kr hkr caps _ p hp
      simp [coverage_regexes] at hkr
      rcases hkr with hk | hk <;>
      · rw [hk] at hp
        simp only [pkFloat1, List.mem_singleton] at hp
        subst hp
        first
        | exact fun hqe => h1 hqe.symm
        | exact fun hqe => h2 hqe.symm

/-- C2 is refuted at `c2_file`: the `on_target_percent` pattern matches both
lines; the first matching line captures 1.5, but the stored value is 2.5,
the capture of the last matching line. -/
theorem c2_counterexample :
    covVal "on_target_percent" "on_target_percent 1.5" =
      some (Value.float (mkRat 15 10)) ∧
    dlookup "on_target_percent" (coverage_record c2_file.lines) =
      some (Value.float (mkRat 25 10)) ∧
    Value.float (mkRat 25 10) ≠ Value.float (mkRat 15 10) := by
  refine ⟨by decide, by decide, by decide⟩

/-- C2 amended (proved): in the coverage_metrics parser the value stored
under a key is the numeric capture from the LAST line matching that key's
regex — later matching lines overwrite earlier ones. -/
theorem c2_last_match_wins (lines : List String) (k : String) :
    dlookup k (coverage_record lines) = (lines.filterMap (covVal k)).getLast? := by
  induction lines using List.reverseRecOn with
  | nil => rfl
  | append_singleton ls l ih =>
    have hrec : coverage_record (ls ++ [l]) =
        applyRegexes pkFloat1 coverage_regexes l (coverage_record ls) := by
      unfold coverage_record
      rw [List.foldl_append]
      rfl
    rw [hrec, coverage_line_lookup, List.filterMap_append]
    cases hv : covVal k l with
    | some v =>
      simp [List.filterMap_cons, hv, Option.or]
    | none =>
      simp [List.filterMap_cons, hv, Option.or, ih]

/-- C5 (confirmed): a line matching `Overall alignment rate: ([\d\.]+)%`
finalizes the current record — the captured float is stored under
`overall_alignment_rate`, the record is saved under the current sample name,
and the accumulator resets to the file's default name and an empty record —
and a single file can therefore yield several sample records, one per
terminating line, as the two-sample evaluation in the second conjunct shows. -/
theorem c5_overall_finalizes (host : Host) (f : LogFile) (st : H2Acc)
    (line : String) (caps : Caps) (h : reSearch h2_re_overall line = some caps) :
    hisat2_step host f st line =
      ⟨f.s_name, [],
        dinsert (hisat2_line_sname host st.s_name line)
          (dinsert "overall_alignment_rate" (.float (pyFloat (capGroup 1 caps)))
            (applyRegexes pkInt1 hisat2_regexes line st.pd)) st.data⟩ ∧
    parse_hisat2_logs hostId [] c5_file =
      [("A.fq", [("paired_total", Value.int 4),
                 ("overall_alignment_rate", Value.float (mkRat 900 10))]),
       ("B.fq", [("paired_total", Value.int 6),
                 ("overall_alignment_rate", Value.float (mkRat 800 10))])] := by
  refine ⟨?_, by decide⟩
  simp [hisat2_step, h]

/-- Witness for C5 at the spec's example line `Overall alignment rate: 97.5%`:
the record is finalized with the float 97.5 and the state is reset. -/
theorem c5_witness :
    hisat2_step hostId c5_file ⟨"X", [], []⟩ "Overall alignment rate: 97.5%" =
      ⟨"smp", [], [("X", [("overall_alignment_rate", Value.float (mkRat 975 10))])]⟩ := by
  rw [(c5_overall_finalizes hostId c5_file ⟨"X", [], []⟩ "Overall alignment rate: 97.5%"
    [(1, "97.5".data)] (by decide)).1]
  decide

/-- C7 is refuted at `c7_data`: the hisat2 bar-chart stage halves the stored
mate count in place — after `hisat2_alignment_plot`, sample `S`'s record has
`unpaired_total` changed from the int 8 to the float 4, so the rendering
stage does not leave the post-parse records unchanged. -/
theorem c7_counterexample :
    dlookup "S" ((hisat2_alignment_plot c7_data).1) =
      some [("paired_total", Value.int 10), ("unpaired_total", Value.float (mkRat 8 2))] ∧
    (hisat2_alignment_plot c7_data).1 ≠ c7_data := by
  refine ⟨by decide, by decide⟩

/-- C7 amended (proved): the rendering stage leaves every record unchanged
except for hisat2's bar-chart stage, which rewrites each stored record by
`h2_plot_record`: records without `paired_total` are untouched, and for
paired-end records only the four mate-count keys are rewritten (halved as
floats); every other key keeps its value. -/
theorem c7_plot_mutation (d : ModData) (s q : String) (rec : Record)
    (h : dlookup s d = some rec) (hq : q ∉ h2_mate_keys) :
    dlookup s ((hisat2_alignment_plot d).1) = some (h2_plot_record rec) ∧
    (dlookup "paired_total" rec = none → h2_plot_record rec = rec) ∧
    dlookup q (h2_plot_record rec) = dlookup q rec := by
  refine ⟨?_, ?_, ?_⟩
  · show dlookup s (d.map (fun kv => (kv.1, h2_plot_record kv.2))) = _
    rw [dlookup_map, h]
    rfl
  · intro hp
    simp [h2_plot_record, hp]
  · have step : ∀ (k : String) (rec' : Record), k ≠ q →
        dlookup q (halveKey rec' k) = dlookup q rec' := by
      intro k rec' hk
      unfold halveKey
      cases dlookup k rec' with
      | none => rfl
      | some v => simp [dlookup_dinsert_ne _ _ _ _ hk]
    simp only [h2_mate_keys, List.mem_cons, List.not_mem_nil, or_false, not_or] at hq
    obtain ⟨hq1, hq2, hq3, hq4⟩ := hq
    unfold h2_plot_record
    split
    · simp only [h2_mate_keys, List.foldl_cons, List.foldl_nil]
      rw [step _ _ (Ne.symm hq4), step _ _ (Ne.symm hq3),
        step _ _ (Ne.symm hq2), step _ _ (Ne.symm hq1)]
    · rfl

/-- Witness for C7 amended at `c7_data`: the plot stage rewrites sample `S`'s
record via `h2_plot_record`, and its `paired_total` value is untouched. -/
theorem c7_witness :
    dlookup "S" ((hisat2_alignment_plot c7_data).1) =
      some (h2_plot_record [("paired_total", Value.int 10), ("unpaired_total", Value.int 8)]) ∧
    (dlookup "paired_total" [("paired_total", Value.int 10), ("unpaired_total", Value.int 8)] = none →
      h2_plot_record [("paired_total", Value.int 10), ("unpaired_total", Value.int 8)] =
        [("paired_total", Value.int 10), ("unpaired_total", Value.int 8)]) ∧
    dlookup "paired_total"
      (h2_plot_record [("paired_total", Value.int 10), ("unpaired_total", Value.int 8)]) =
      dlookup "paired_total" [("paired_total", Value.int 10), ("unpaired_total", Value.int 8)] :=
  c7_plot_mutation c7_data "S" "paired_total"
    [("paired_total", Value.int 10), ("unpaired_total", Value.int 8)]
    (by decide) (by decide)

/-! ## C6: jax_trimmer paired-end semantics -/

theorem hasPref_of_append (p q s : List Char) (h : hasPref (p ++ q) s = true) :
    hasPref p s = true := by
  induction p generalizing s with
  | nil => rfl
  | cons c cs ih =>
    cases s with
    | nil => simp [hasPref] at h
    | cons d ds =>
      simp only [List.cons_append, hasPref, Bool.and_eq_true] at h ⊢
      exact ⟨h.1, ih ds h.2⟩

theorem hasSub_of_append (p q s : List Char) (h : hasSub (p ++ q) s = true) :
    hasSub p s = true := by
  induction s with
  | nil =>
    simp only [hasSub] at h ⊢
    exact hasPref_of_append p q [] h
  | cons c t ih =>
    simp only [hasSub, Bool.or_eq_true] at h ⊢
    rcases h with h | h
    · exact Or.inl (hasPref_of_append _ _ _ h)
    · exact Or.inr (ih h)

theorem jax_read2_read (s : List Char) (h : hasSub "Read 2".data s = true) :
    hasSub "Read".data s = true := by
  have e : "Read 2".data = "Read".data ++ " 2".data := rfl
  rw [e] at h
  exact hasSub_of_append _ _ _ h

theorem jax_line_step_pe_eq (st : Bool × Record) (l : String) :
    (jax_line_step st l).1 = (st.1 || hasSub "Read 2".data l.data) := by
  cases hR : hasSub "Read".data l.data with
  | true =>
    cases h2 : hasSub "Read 2".data l.data with
    | true => simp [jax_line_step, hR, h2]
    | false => simp [jax_line_step, hR, h2]
  | false =>
    have h2 : hasSub "Read 2".data l.data = false := by
      cases h2v : hasSub "Read 2".data l.data with
      | false => rfl
      | true =>
        have := jax_read2_read _ h2v
        rw [hR] at this
        exact absurd this (by simp)
    cases hst : st.1 with
    | true => simp [jax_line_step, hR, h2, hst]
    | false => simp [jax_line_step, hR, h2, hst]

theorem jax_fold_pe (lines : List String) : ∀ st : Bool × Record,
    (lines.foldl jax_line_step st).1 =
      (st.1 || lines.any (fun l => hasSub "Read 2".data l.data)) := by
  induction lines with
  | nil => intro st; simp
  | cons l t ih =>
    intro st
    simp only [List.foldl_cons, List.any_cons]
    rw [ih, jax_line_step_pe_eq]
    cases st.1 <;> cases hasSub "Read 2".data l.data <;> simp

theorem jax_state_marker (f : LogFile) : (jax_file_state f).1 = jaxHasMarker f := by
  unfold jax_file_state jaxHasMarker
  rw [jax_fold_pe]
  simp

theorem jax_files_last (files : List LogFile) (f : LogFile) :
    files.getLast? = some f →
    ∀ init : ModData × Bool,
      (files.foldl (fun st g => parse_jax_trimmer_logs st.1 g) init).2 =
        (jax_file_state f).1 := by
  induction files with
  | nil => intro h; simp at h
  | cons g gs ih =>
    intro h init
    cases gs with
    | nil =>
      simp only [List.getLast?_singleton, Option.some.injEq] at h
      subst h
      simp [List.foldl, parse_jax_trimmer_logs]
    | cons g2 gs2 =>
      simp only [List.foldl_cons]
      rw [List.getLast?_cons_cons] at h
      exact ih h _

theorem jax_headers_contains (pe : Bool) :
    (jax_headers pe).contains "total_reads_2" = pe := by
  cases pe <;> decide

theorem jaxPkPE_fst (k : String) (caps : Caps) (p : String × Value)
    (hp : p ∈ jaxPkPE k caps) : p.1 = k ++ "_1" ∨ p.1 = k ++ "_2" := by
  simp only [jaxPkPE, List.mem_cons, List.mem_singleton, List.not_mem_nil,
    or_false] at hp
  rcases hp with hp | hp <;> simp [hp]

theorem jaxPkSE_fst (k : String) (caps : Caps) (p : String × Value)
    (hp : p ∈ jaxPkSE k caps) : p.1 = k ++ "_1" := by
  simp only [jaxPkSE, List.mem_singleton] at hp
  simp [hp]

theorem jaxPkPE_not_key (post : List (String × REA)) (l q : String)
    (h : ∀ kr ∈ post, kr.1 ++ "_1" ≠ q ∧ kr.1 ++ "_2" ≠ q) :
    ∀ kr ∈ post, ∀ caps, reSearch kr.2 l = some caps →
      ∀ p ∈ jaxPkPE kr.1 caps, p.1 ≠ q := by
  intro kr hkr caps _ p hp
  rcases jaxPkPE_fst _ _ _ hp with hfst | hfst <;> rw [hfst]
  · exact (h kr hkr).1
  · exact (h kr hkr).2

theorem jaxPkSE_not_key (post : List (String × REA)) (l q : String)
    (h : ∀ kr ∈ post, kr.1 ++ "_1" ≠ q) :
    ∀ kr ∈ post, ∀ caps, reSearch kr.2 l = some caps →
      ∀ p ∈ jaxPkSE kr.1 caps, p.1 ≠ q := by
  intro kr hkr caps _ p hp
  rw [jaxPkSE_fst _ _ _ hp]
  exact h kr hkr

theorem jaxPE_store_1 (pre post : List (String × REA)) (k : String) (ra : REA)
    (l : String) (pd : Record) (caps : Caps)
    (hsplit : jax_regexes_pe = pre ++ (k, ra) :: post)
    (hm : reSearch ra l = some caps)
    (hpost : ∀ kr ∈ post, kr.1 ++ "_1" ≠ k ++ "_1" ∧ kr.1 ++ "_2" ≠ k ++ "_1")
    (hne : k ++ "_2" ≠ k ++ "_1") :
    dlookup (k ++ "_1") (applyRegexes jaxPkPE jax_regexes_pe l pd) =
      some (.float (pyFloat (capGroup 1 caps))) := by
  rw [hsplit, applyRegexes_append, applyRegexes_cons,
    applyRegexes_not jaxPkPE post l _ (jaxPkPE_not_key post l _ hpost)]
  simp only [regexStep, hm, jaxPkPE, List.foldl_cons, List.foldl_nil]
  rw [dlookup_dinsert_ne _ _ _ _ hne, dlookup_dinsert_self]

theorem jaxPE_store_2 (pre post : List (String × REA)) (k : String) (ra : REA)
    (l : String) (pd : Record) (caps : Caps)
    (hsplit : jax_regexes_pe = pre ++ (k, ra) :: post)
    (hm : reSearch ra l = some caps)
    (hpost : ∀ kr ∈ post, kr.1 ++ "_1" ≠ k ++ "_2" ∧ kr.1 ++ "_2" ≠ k ++ "_2") :
    dlookup (k ++ "_2") (applyRegexes jaxPkPE jax_regexes_pe l pd) =
      some (.float (pyFloat (capGroup 2 caps))) := by
  rw [hsplit, applyRegexes_append, applyRegexes_cons,
    applyRegexes_not jaxPkPE post l _ (jaxPkPE_not_key post l _ hpost)]
  simp only [regexStep, hm, jaxPkPE, List.foldl_cons, List.foldl_nil]
  rw [dlookup_dinsert_self]

theorem jaxSE_store_1 (pre post : List (String × REA)) (k : String) (ra : REA)
    (l : String) (pd : Record) (caps : Caps)
    (hsplit : jax_regexes_se = pre ++ (k, ra) :: post)
    (hm : reSearch ra l = some caps)
    (hpost : ∀ kr ∈ post, kr.1 ++ "_1" ≠ k ++ "_1") :
    dlookup (k ++ "_1") (applyRegexes jaxPkSE jax_regexes_se l pd) =
      some (.float (pyFloat (capGroup 1 caps))) := by
  rw [hsplit, applyRegexes_append, applyRegexes_cons,
    applyRegexes_not jaxPkSE post l _ (jaxPkSE_not_key post l _ hpost)]
  simp only [regexStep, hm, jaxPkSE, List.foldl_cons, List.foldl_nil]
  rw [dlookup_dinsert_self]

theorem str_append_cancel (a b s : String) (h : a ++ s = b ++ s) : a = b := by
  have hd : a.data ++ s.data = b.data ++ s.data := by
    rw [← String.data_append a s, ← String.data_append b s, h]
  exact String.ext (List.append_cancel_right hd)

theorem str_append_ne_21 (a b : String) : a ++ "_2" ≠ b ++ "_1" := by
  intro h
  have hd : a.data ++ ['_', '2'] = b.data ++ ['_', '1'] := by
    rw [← String.data_append a "_2", ← String.data_append b "_1", h]
  have hd2 : (a.data ++ ['_']) ++ ['2'] = (b.data ++ ['_']) ++ ['1'] := by
    rw [List.append_assoc, List.append_assoc]
    exact hd
  have h2 := congrArg List.getLast? hd2
  rw [List.getLast?_concat, List.getLast?_concat] at h2
  exact absurd h2 (by decide)

theorem str_append_ne_12 (a b : String) : a ++ "_1" ≠ b ++ "_2" :=
  fun h => str_append_ne_21 b a h.symm

theorem table_post_keys (tab pre post : List (String × REA)) (k : String) (ra : REA)
    (hsplit : tab = pre ++ (k, ra) :: post) (hnd : (tab.map Prod.fst).Nodup) :
    ∀ kr ∈ post, kr.1 ≠ k := by
  subst hsplit
  rw [List.map_append, List.nodup_append] at hnd
  obtain ⟨-, hnd2, -⟩ := hnd
  rw [List.map_cons, List.nodup_cons] at hnd2
  intro kr hkr he
  have hmem : kr.1 ∈ post.map Prod.fst := List.mem_map_of_mem Prod.fst hkr
  rw [he] at hmem
  exact hnd2.1 hmem

theorem jaxPE_mem_store_1 (k : String) (ra : REA) (l : String) (pd : Record)
    (caps : Caps) (hk : (k, ra) ∈ jax_regexes_pe) (hm : reSearch ra l = some caps) :
    dlookup (k ++ "_1") (applyRegexes jaxPkPE jax_regexes_pe l pd) =
      some (.float (pyFloat (capGroup 1 caps))) := by
  obtain ⟨pre, post, hsplit⟩ := List.append_of_mem hk
  have hkeys := table_post_keys _ pre post k ra hsplit (by decide)
  exact jaxPE_store_1 pre post k ra l pd caps hsplit hm
    (fun kr hkr => ⟨fun he => hkeys kr hkr (str_append_cancel _ _ _ he),
      str_append_ne_21 _ _⟩)
    (str_append_ne_21 k k)

theorem jaxPE_mem_store_2 (k : String) (ra : REA) (l : String) (pd : Record)
    (caps : Caps) (hk : (k, ra) ∈ jax_regexes_pe) (hm : reSearch ra l = some caps) :
    dlookup (k ++ "_2") (applyRegexes jaxPkPE jax_regexes_pe l pd) =
      some (.float (pyFloat (capGroup 2 caps))) := by
  obtain ⟨pre, post, hsplit⟩ := List.append_of_mem hk
  have hkeys := table_post_keys _ pre post k ra hsplit (by decide)
  exact jaxPE_store_2 pre post k ra l pd caps hsplit hm
    (fun kr hkr => ⟨str_append_ne_12 _ _,
      fun he => hkeys kr hkr (str_append_cancel _ _ _ he)⟩)

theorem jaxSE_mem_store_1 (k : String) (ra : REA) (l : String) (pd : Record)
    (caps : Caps) (hk : (k, ra) ∈ jax_regexes_se) (hm : reSearch ra l = some caps) :
    dlookup (k ++ "_1") (applyRegexes jaxPkSE jax_regexes_se l pd) =
      some (.float (pyFloat (capGroup 1 caps))) := by
  obtain ⟨pre, post, hsplit⟩ := List.append_of_mem hk
  have hkeys := table_post_keys _ pre post k ra hsplit (by decide)
  exact jaxSE_store_1 pre post k ra l pd caps hsplit hm
    (fun kr hkr he => hkeys kr hkr (str_append_cancel _ _ _ he))

/-- C6 is refuted on a multi-file run: `self.pe_bool` is reset at the start
of each file's parse, so after a paired-end file (marker seen, `_2` keys
stored for sample `A`) followed by a single-end file, the `_2` header columns
are withheld even though a `Read 2` marker was seen in the file set. -/
theorem c6_counterexample :
    jaxHasMarker c6_pe_file = true ∧
    jax_module hostId [c6_pe_file, c6_se_file] =
      .ok ⟨[("A", [("total_reads_1", Value.float 10), ("total_reads_2", Value.float 20)]),
            ("B", [("total_reads_1", Value.float 5)])],
           [("A", [("total_reads_1", Value.float 10), ("total_reads_2", Value.float 20)]),
            ("B", [("total_reads_1", Value.float 5)])],
           jax_headers false⟩ ∧
    (jax_headers false).contains "total_reads_2" = false := by
  refine ⟨by decide, by decide, by decide⟩

/-- C6 amended (proved): within a file, once the `Read 2` marker has been
seen, every pattern matched on a later line that does not itself contain
`Read` stores both the `_1` and the `_2` suffixed keys (Python groups 1 and
2 of the two-column pattern); in single-end mode only `_1` keys are stored
and `_2` keys are untouched; and the paired-specific `_2` header columns are
added if and only if the LAST-parsed file contains a `Read 2` marker line,
because `self.pe_bool` is reset by each file's parse. -/
theorem c6_paired_end_semantics (host : Host) (files : List LogFile) (f : LogFile)
    (r : SimpleReport) (k : String) (ra ras : REA) (l : String) (pd : Record)
    (caps capsSE : Caps)
    (h1 : jax_module host files = .ok r)
    (h2 : files.getLast? = some f)
    (hk : (k, ra) ∈ jax_regexes_pe)
    (hks : (k, ras) ∈ jax_regexes_se)
    (hread : hasSub "Read".data l.data = false)
    (hm : reSearch ra l = some caps)
    (hms : reSearch ras l = some capsSE) :
    r.gs_headers.contains "total_reads_2" = jaxHasMarker f ∧
    (jax_line_step (true, pd) l).1 = true ∧
    dlookup (k ++ "_1") ((jax_line_step (true, pd) l).2) =
      some (.float (pyFloat (capGroup 1 caps))) ∧
    dlookup (k ++ "_2") ((jax_line_step (true, pd) l).2) =
      some (.float (pyFloat (capGroup 2 caps))) ∧
    (jax_line_step (false, pd) l).1 = false ∧
    dlookup (k ++ "_1") ((jax_line_step (false, pd) l).2) =
      some (.float (pyFloat (capGroup 1 capsSE))) ∧
    dlookup (k ++ "_2") ((jax_line_step (false, pd) l).2) = dlookup (k ++ "_2") pd := by
  have hsteppe : jax_line_step (true, pd) l =
      (true, applyRegexes jaxPkPE jax_regexes_pe l pd) := by
    simp [jax_line_step, hread]
  have hstepse : jax_line_step (false, pd) l =
      (false, applyRegexes jaxPkSE jax_regexes_se l pd) := by
    simp [jax_line_step, hread]
  refine ⟨?_, ?_, ?_, ?_, ?_, ?_, ?_⟩
  · have hpe := jax_files_last files f h2 ([], false)
    rw [jax_state_marker] at hpe
    simp only [jax_module] at h1
    split at h1
    · exact absurd h1 (by simp)
    · injection h1 with h1
      rw [← h1]
      show (jax_headers _).contains "total_reads_2" = _
      rw [jax_headers_contains]
      exact hpe
  · rw [hsteppe]
  · rw [hsteppe]; exact jaxPE_mem_store_1 k ra l pd caps hk hm
  · rw [hsteppe]; exact jaxPE_mem_store_2 k ra l pd caps hk hm
  · rw [hstepse]
  · rw [hstepse]; exact jaxSE_mem_store_1 k ras l pd capsSE hks hms
  · rw [hstepse]
    exact applyRegexes_not jaxPkSE jax_regexes_se l _
      (jaxPkSE_not_key _ l _ (fun kr _ => str_append_ne_12 _ _)) pd

/-- Witness for C6 amended: a single paired-end file run, with the
`total_reads` pattern matched on a marker-free line. -/
theorem c6_witness :
    (⟨[("A", [("total_reads_1", Value.float 10), ("total_reads_2", Value.float 20)])],
      [("A", [("total_reads_1", Value.float 10), ("total_reads_2", Value.float 20)])],
      jax_headers true⟩ : SimpleReport).gs_headers.contains "total_reads_2" =
        jaxHasMarker c6_pe_file ∧
    (jax_line_step (true, []) "Total number of reads  7  9").1 = true ∧
    dlookup ("total_reads" ++ "_1") ((jax_line_step (true, []) "Total number of reads  7  9").2) =
      some (.float (pyFloat (capGroup 1 [(2, "9".data), (1, "7".data)]))) ∧
    dlookup ("total_reads" ++ "_2") ((jax_line_step (true, []) "Total number of reads  7  9").2) =
      some (.float (pyFloat (capGroup 2 [(2, "9".data), (1, "7".data)]))) ∧
    (jax_line_step (false, []) "Total number of reads  7  9").1 = false ∧
    dlookup ("total_reads" ++ "_1") ((jax_line_step (false, []) "Total number of reads  7  9").2) =
      some (.float (pyFloat (capGroup 1 [(1, "7".data)]))) ∧
    dlookup ("total_reads" ++ "_2") ((jax_line_step (false, []) "Total number of reads  7  9").2) =
      dlookup ("total_reads" ++ "_2") [] :=
  c6_paired_end_semantics hostId [c6_pe_file] c6_pe_file
    ⟨[("A", [("total_reads_1", Value.float 10), ("total_reads_2", Value.float 20)])],
     [("A", [("total_reads_1", Value.float 10), ("total_reads_2", Value.float 20)])],
     jax_headers true⟩
    "total_reads" jax_re_total_reads_pe jax_re_total_reads_se
    "Total number of reads  7  9" [] [(2, "9".data), (1, "7".data)] [(1, "7".data)]
    (by decide) (by decide) (by decide) (by decide) (by decide) (by decide) (by decide)
